import Mathlib

/-!
# Verification of the krrood pattern compiler and reflection layer

A shallow embedding, in Lean 4, of the parts of the `krrood` repository that
the specification's claims are about:

* the field-reflection layer (`src/krrood/class_diagrams/wrapped_field.py`),
* the pattern compiler `Match`/`Select`
  (`src/krrood/entity_query_language/match.py`),
* the user-facing helpers `let`, `the`, `contains`, `in_`
  (`src/krrood/entity_query_language/entity.py`).

Python classes become Lean structures/inductives, Python functions become
executable Lean functions, `raise` becomes `Except.error`.  Parts of the
repository that live in modules not shipped here (`symbolic.py`,
`symbol_graph.py`, `utils.py`) are modelled from the specification and are
marked `Modelled from the spec:` in their doc comments.
-/

/- ## Field reflection layer (`class_diagrams/wrapped_field.py`) -/

/-- The possible results of Python's `typing.get_origin` on a field's
resolved type annotation, as an enumerated kind.  `listOrigin` … stand for
the classes `list`, `set`, `tuple`, `type`, `collections.abc.Sequence`;
further origins (`Union`, `dict`) exist so that "no other origin" claims
are meaningful. -/
inductive PyOrigin where
  | listOrigin
  | setOrigin
  | tupleOrigin
  | typeOrigin
  | sequenceOrigin
  | unionOrigin
  | dictOrigin
deriving DecidableEq, Repr

/-- A resolved Python type annotation, reduced to the data the reflection
layer inspects for the container test: its `get_origin` result (`none` for
a plain class with no origin). -/
structure ResolvedPyType where
  origin : Option PyOrigin
deriving DecidableEq, Repr

/-- Source: `WrappedField.container_types` (wrapped_field.py line 65):
`[list, set, tuple, type, Sequence]`. -/
def containerTypesList : List PyOrigin :=
  [.listOrigin, .setOrigin, .tupleOrigin, .typeOrigin, .sequenceOrigin]

/-- Source: `WrappedField.is_container` (wrapped_field.py lines 119-121):
`get_origin(self.resolved_type) in self.container_types`.  When
`get_origin` yields `None` the Python membership test is `False`. -/
def isContainerOrigin (origin : Option PyOrigin) : Bool :=
  match origin with
  | some o => containerTypesList.contains o
  | none => false

/-- The container test as the specification words it ("it is a container if
its origin type is one of \x7blist, set, tuple, type-reference\x7d"): only the
four listed kinds count.  Stated from the spec in order to compare against
`isContainerOrigin`, which follows the source. -/
def specContainerOrigin (origin : Option PyOrigin) : Bool :=
  match origin with
  | some o => [PyOrigin.listOrigin, .setOrigin, .tupleOrigin, .typeOrigin].contains o
  | none => false

/-- A Python class as seen by the name-based forward-reference search:
its `__name__` and an identity (two distinct classes may share a name,
which is what the ambiguity warning is about). -/
structure NamedClass where
  className : String
  classId : Nat
deriving DecidableEq, Repr, BEq

/-- Source: `search_class_in_globals` (wrapped_field.py lines 230-241): all classes
in the module's `globals()` whose `__name__` equals the target. -/
def searchClassInGlobals (globalsNS : List NamedClass) (target : String) :
    List NamedClass :=
  globalsNS.filter (fun c => c.className == target)

/-- Source: `search_class_in_sys_modules` (wrapped_field.py lines 244-258): walk
every loaded module's `__dict__`, collecting classes whose name matches,
skipping a class that was already collected. -/
def searchClassInSysModules (modules : List (List NamedClass)) (target : String) :
    List NamedClass :=
  modules.foldl
    (fun acc mod =>
      mod.foldl
        (fun acc2 c =>
          if c.className == target && !(acc2.contains c) then acc2 ++ [c] else acc2)
        acc)
    []

/-- The payload of `TypeResolutionError` (wrapped_field.py lines 32-41). -/
structure TypeResolutionErrorInfo where
  name : String
deriving DecidableEq, Repr

/-- Source: `manually_search_for_class_name` (wrapped_field.py lines 200-227):
globals first, then sys.modules; zero candidates is a
`TypeResolutionError`, one candidate is returned as is, several candidates
log a warning (the Boolean in the result) and the first is returned. -/
def manuallySearchForClassName (globalsNS : List NamedClass)
    (modules : List (List NamedClass)) (target : String) :
    Except TypeResolutionErrorInfo (NamedClass × Bool) :=
  let found := searchClassInGlobals globalsNS target ++
    searchClassInSysModules modules target
  match found with
  | [] => .error ⟨target⟩
  | [c] => .ok (c, false)
  | c :: _ :: _ => .ok (c, true)

/-- The forward-reference branch of `WrappedField.resolved_type`
(wrapped_field.py lines 90-113): on a `NameError` for `name`, first look
for an exact `__name__` match among the class diagram's wrapped classes
(taking the first match, no warning); only when none exists fall back to
`manually_search_for_class_name`.  The Boolean records whether the
ambiguity warning was logged. -/
def resolveForwardReference (diagramClasses : List NamedClass)
    (globalsNS : List NamedClass) (modules : List (List NamedClass))
    (name : String) : Except TypeResolutionErrorInfo (NamedClass × Bool) :=
  match diagramClasses.filter (fun c => c.className == name) with
  | c :: _ => .ok (c, false)
  | [] => manuallySearchForClassName globalsNS modules name

/-- The identity of a `WrappedField`: `__eq__` and `__hash__`
(wrapped_field.py lines 73-80) compare the pair
`(self.clazz.clazz, self.field)`; classes and dataclass fields are
identified here by a class id and the field's name. -/
structure WrappedFieldId where
  clazzId : Nat
  fieldName : String
deriving DecidableEq, Repr

/-- Modelled from the spec: `classify(record_type, field_name)`.  The
`WrappedClass` factory that constructs `WrappedField` objects lives in
`class_diagrams/class_diagram.py`, which is not under src/; per spec §3 a
descriptor is "created lazily on first access per (type, field) pair", so
classification constructs the wrapper identified by that pair. -/
def classifyField (t : Nat) (f : String) : WrappedFieldId :=
  { clazzId := t, fieldName := f }

/-- Source: `WrappedField.__eq__` (wrapped_field.py lines 76-80) as a Boolean test. -/
def wrappedFieldEq (a b : WrappedFieldId) : Bool :=
  a.clazzId == b.clazzId && a.fieldName == b.fieldName

/-- The cache cell behind the `@cached_property resolved_type`
(wrapped_field.py lines 85-86): empty until the first access. -/
structure ResolvedTypeCache where
  cache : Option Nat
deriving DecidableEq, Repr

/-- One access to the memoized `resolved_type` property: a hit returns the
cached value and leaves the cell untouched without invoking the resolver;
a miss runs the resolver once and stores the result.  The final component
counts resolver invocations performed by this access. -/
def cachedResolvedTypeAccess (resolver : WrappedFieldId → Nat)
    (w : WrappedFieldId) (st : ResolvedTypeCache) :
    Nat × ResolvedTypeCache × Nat :=
  match st.cache with
  | some v => (v, st, 0)
  | none => (resolver w, ⟨some (resolver w)⟩, 1)

/- ## Symbolic expressions and domain sources
   (`entity_query_language/entity.py`, with the node types of
   `symbolic.py` modelled from the spec where that module is not under
   src/) -/

/-- A concrete Python value as it appears in domains and as a literal
constraint: a record instance (identified by its dynamic type id and an
object identity), a non-record scalar, Python's `None`, or a concrete
collection.  Modelled from the spec: §3 "domain source … concrete
collection", §4.2 "literal". -/
inductive PlainValue where
  | obj (typeId : Nat) (ident : Nat)
  | prim (s : String)
  | noneV
  | listV (xs : List PlainValue)

/-- Modelled from the spec: `utils.is_iterable` (utils.py is not under
src/).  Per §4.2 the cardinality comparison asks whether a value is a
collection; record instances and scalars are not iterable, concrete
collections are. -/
def isIterablePlain : PlainValue → Bool
  | .listV _ => true
  | _ => false

/-- Python truthiness of the modelled values (`if type_ and …` in
`_match_or_select`): `None`, empty strings and empty collections are
falsy. -/
def isTruthyPlain : PlainValue → Bool
  | .obj _ _ => true
  | .prim s => !(s == "")
  | .noneV => false
  | .listV xs => !xs.isEmpty

/-- The FieldDescriptor data the pattern compiler reads off an attribute's
`WrappedField`: relationship cardinality (`is_iterable`, true for
one-to-many container fields) and the `type_endpoint` (the innermost
element type, `none` when no type metadata exists). -/
structure FieldDescriptor where
  isIterable : Bool
  typeEndpoint : Option Nat
deriving DecidableEq, Repr

/-- The ambient class metadata the engine consults: per-(type, field)
descriptors, the `issubclass` relation, which types are `Symbol`
(queryable) types, the global `SymbolGraph` registry of known instances,
type names, and which declared types are themselves iterable.  Function
fields keep the embedding parametric in the user's record types. -/
structure ClassTable where
  fieldsOf : Nat → String → Option FieldDescriptor
  isSub : Nat → Nat → Bool
  isSymbol : Nat → Bool
  registry : List PlainValue
  typeName : Nat → String
  isIterableType : Nat → Bool

/-- Python's `isinstance(value, t)` for a record type `t`: true exactly
for record instances whose dynamic type is `t` or a subtype. -/
def isinstanceV (tbl : ClassTable) (v : PlainValue) (t : Nat) : Bool :=
  match v with
  | .obj tid _ => tbl.isSub tid t
  | _ => false

/-- A symbolic expression node that can behave like a variable
(`CanBehaveLikeAVariable` in `symbolic.py`): a `Variable` (with its name,
declared type, domain source and iterability), an `Attribute` read off a
base expression and annotated with its backing `FieldDescriptor` (or
`none` when the name has no known field), a `Literal`, or a `Flatten`
unnesting node.  `symbolic.py` is not under src/; the node shapes are
modelled from spec §3. -/
inductive SymExpr where
  | varE (name : String) (type_ : Option Nat) (domain : Option (List PlainValue))
      (iterable : Bool)
  | attrE (base : SymExpr) (fieldName : String) (wrappedField : Option FieldDescriptor)
  | litE (v : PlainValue)
  | flattenE (child : SymExpr)

/-- Source: `_is_iterable_` of a symbolic node.  Modelled from the spec:
"attributes formed from a container-cardinality field are marked iterable"
(§3); a `Flatten` node stands for one unnested element, so it is not
itself iterable; a literal is iterable when its wrapped value is. -/
def isIterableExpr : SymExpr → Bool
  | .varE _ _ _ it => it
  | .attrE _ _ wf => (wf.map (fun f => f.isIterable)).getD false
  | .litE v => isIterablePlain v
  | .flattenE _ => false

/-- Source: `_type_` of a symbolic node: a variable's declared type; an
attribute's `type_endpoint` (the element type for container fields); a
`Flatten` ranges over its child's elements, whose type is the child
attribute's endpoint. -/
def typeOfExpr : SymExpr → Option Nat
  | .varE _ t _ _ => t
  | .attrE _ _ wf => wf.bind (fun f => f.typeEndpoint)
  | .litE _ => none
  | .flattenE c => typeOfExpr c

/-- Modelled from the spec: `SymbolGraph().get_instances_of_type(type_)`
(`symbol_graph.py` is not under src/).  Per §3 an omitted domain for a
queryable type means "a global-registry lookup of all known instances of
that type". -/
def symbolGraphInstances (tbl : ClassTable) (t : Nat) : List PlainValue :=
  tbl.registry.filter (fun x => isinstanceV tbl x t)

/-- Source: `_get_domain_source_from_domain_and_type_values` (entity.py lines
222-236): an iterable domain is filtered to instances of the declared
type; an omitted domain for a `Symbol` type is looked up in the
`SymbolGraph`; otherwise the `From` source stays empty (`From(None)`). -/
def getDomainSourceFromDomainAndTypeValues (tbl : ClassTable)
    (domain : Option (List PlainValue)) (t : Nat) : Option (List PlainValue) :=
  match domain with
  | some xs => some (xs.filter (fun x => isinstanceV tbl x t))
  | none => if tbl.isSymbol t then some (symbolGraphInstances tbl t) else none

/-- Source: `let` (entity.py lines 186-219): declare a `Variable` of the given
type over the computed domain source.  A `None` type makes the Python
function crash on `issubclass(None, Symbol)` before any variable exists,
so that case yields `none`. -/
def letFn (tbl : ClassTable) (type_ : Option Nat)
    (domain : Option (List PlainValue)) : Option SymExpr :=
  match type_ with
  | none => none
  | some t =>
      some (.varE (tbl.typeName t) (some t)
        (getDomainSourceFromDomainAndTypeValues tbl domain t)
        (tbl.isIterableType t))

/-- The domain source stored in a `let`-created variable. -/
def letVariableDomain : Option SymExpr → Option (Option (List PlainValue))
  | some (.varE _ _ d _) => some d
  | _ => none

/- ## The pattern compiler (`entity_query_language/match.py`) -/

/-- An operand of a synthesized condition: a symbolic node or a plain
Python value. -/
inductive Operand where
  | sym (e : SymExpr)
  | plain (v : PlainValue)

/-- A compiled condition.  `comparatorContains container item` is
`Comparator(container, item, operator.contains)`, which is what both
`contains(container, item)` and `in_(item, container)` (entity.py lines
272-296) construct; `hasTypeC` is the `HasType` predicate; `existsC` is
the `Exists` wrapper. -/
inductive Condition where
  | comparatorContains (container : Operand) (item : Operand)
  | comparatorEq (left : Operand) (right : Operand)
  | hasTypeC (attr : SymExpr) (type_ : Option Nat)
  | existsC (over : SymExpr) (inner : Condition)

mutual
/-- The builder-time `Match` dataclass (match.py lines 42-86), by
constructor fields: target type, field-name-to-constraint map, optional
already-bound variable, the `is_selected` / `existential` / `universal`
flags, whether the object is an instance of the `Select` subclass, and
the explicit domain of a `MatchEntity` (none for a plain `Match`).
The Python `type_` slot can also hold a raw non-type value (the
`_match_or_select` branch for truthy non-types); that value is never read
again on such (already resolved) patterns, so only real types are kept. -/
inductive MatchPattern where
  | mk (type_ : Option Nat) (kwargs : KwList) (boundVar : Option SymExpr)
      (isSelected : Bool) (existential : Bool) (universal : Bool)
      (isSelectKind : Bool) (domain : Option (List PlainValue))

/-- The `kwargs` mapping of a `Match`, in insertion order. -/
inductive KwList where
  | nil
  | cons (name : String) (value : MatchValue) (rest : KwList)

/-- A value assigned to a pattern attribute: an existing symbolic node
(`CanBehaveLikeAVariable`), a plain Python value, or a nested `Match`. -/
inductive MatchValue where
  | symV (e : SymExpr)
  | plainV (v : PlainValue)
  | nestedV (m : MatchPattern)
end

def MatchPattern.typeOf : MatchPattern → Option Nat
  | .mk t _ _ _ _ _ _ _ => t

def MatchPattern.kwargsOf : MatchPattern → KwList
  | .mk _ k _ _ _ _ _ _ => k

def MatchPattern.variableOf : MatchPattern → Option SymExpr
  | .mk _ _ v _ _ _ _ _ => v

def MatchPattern.isSelectedOf : MatchPattern → Bool
  | .mk _ _ _ s _ _ _ _ => s

def MatchPattern.existentialOf : MatchPattern → Bool
  | .mk _ _ _ _ e _ _ _ => e

def MatchPattern.universalOf : MatchPattern → Bool
  | .mk _ _ _ _ _ u _ _ => u

def MatchPattern.isSelectKindOf : MatchPattern → Bool
  | .mk _ _ _ _ _ _ k _ => k

def MatchPattern.domainOf : MatchPattern → Option (List PlainValue)
  | .mk _ _ _ _ _ _ _ d => d

/-- Replace the kwargs of a pattern: the builder's `__call__`
(match.py lines 87-95). -/
def MatchPattern.withKwargs : MatchPattern → KwList → MatchPattern
  | .mk t _ v s e u k d, kw => .mk t kw v s e u k d

/-- Replace the explicit domain of a pattern. -/
def MatchPattern.withDomain : MatchPattern → Option (List PlainValue) → MatchPattern
  | .mk t kw v s e u k _, d => .mk t kw v s e u k d

/-- Source: `match_any` / `select_any` set the `existential` flag after
construction (match.py lines 451-459, 482-490). -/
def MatchPattern.setExistential : MatchPattern → Bool → MatchPattern
  | .mk t kw v s _ u k d, e => .mk t kw v s e u k d

/-- Source: `match_all` / `select_all` set the `universal` flag after construction
(match.py lines 462-470, 493-501). -/
def MatchPattern.setUniversal : MatchPattern → Bool → MatchPattern
  | .mk t kw v s e _ k d, u => .mk t kw v s e u k d

def KwList.isEmptyKw : KwList → Bool
  | .nil => true
  | .cons _ _ _ => false

/-- Membership of a (name, value) binding in a kwargs map. -/
def KwList.memKw (n : String) (v : MatchValue) : KwList → Prop
  | .nil => False
  | .cons n' v' rest => (n' = n ∧ v' = v) ∨ rest.memKw n v

/-- Source: `Match.is_an_unresolved_match` (match.py lines 159-167): a `Match`
instance whose `variable` is still unset. -/
def isUnresolvedMatch : MatchValue → Bool
  | .nestedV m => m.variableOf.isNone
  | _ => false

/-- Source: `isinstance(value, Select)` on an assigned value. -/
def isSelectValue : MatchValue → Bool
  | .nestedV m => m.isSelectKindOf
  | _ => false

/-- Source: `Match._is_iterable_value` (match.py lines 312-326): symbolic nodes
answer with their own `_is_iterable_`; plain values with `is_iterable`;
a `Match` answers for its bound variable (and an unresolved `Match`,
whose variable is `None`, is never iterable). -/
def isIterableValue : MatchValue → Bool
  | .symV e => isIterableExpr e
  | .plainV v => isIterablePlain v
  | .nestedV m =>
      match m.variableOf with
      | some e => isIterableExpr e
      | none => false

/-- Source: `assigned_value.variable if isinstance(assigned_value, Match) else
assigned_value` (match.py lines 266-270).  For an unresolved `Match` the
Python attribute is `None`; that branch is unreachable in resolution,
which routes unresolved matches elsewhere. -/
def assignedVariableOf : MatchValue → Operand
  | .symV e => .sym e
  | .plainV v => .plain v
  | .nestedV m =>
      match m.variableOf with
      | some e => .sym e
      | none => .plain .noneV

/-- Source: `universal = isinstance(assigned_value, Match) and
assigned_value.universal` (match.py line 271). -/
def isUniversalValue : MatchValue → Bool
  | .nestedV m => m.universalOf
  | _ => false

/-- Source: `assigned_value.existential` guarded by `isinstance(assigned_value,
Match)` (match.py line 248). -/
def isExistentialValue : MatchValue → Bool
  | .nestedV m => m.existentialOf
  | _ => false

/-- Source: `flatten(attr) if not isinstance(attr, Flatten) else attr`
(match.py line 281). -/
def flattenOnce : SymExpr → SymExpr
  | .flattenE c => .flattenE c
  | e => .flattenE e

/-- Source: `attr if not isinstance(attr, Flatten) else attr._child_`
(match.py line 249). -/
def unFlatten : SymExpr → SymExpr
  | .flattenE c => c
  | e => e

/-- Source: `Match._get_either_a_containment_or_an_equal_condition` (match.py
lines 253-284): the single condition synthesized for an already-bound
assigned value, chosen by cardinality comparison. -/
def getCondition (attr : SymExpr) (value : MatchValue) : Condition :=
  let assignedVar := assignedVariableOf value
  let universal := isUniversalValue value
  if isIterableExpr attr && !(isIterableValue value) then
    .comparatorContains (.sym attr) assignedVar
  else if !(isIterableExpr attr) && isIterableValue value then
    .comparatorContains assignedVar (.sym attr)
  else if isIterableExpr attr && isIterableValue value && !universal then
    .comparatorContains assignedVar (.sym (flattenOnce attr))
  else
    .comparatorEq (.sym attr) assignedVar

/-- Source: `Match._update_condition_if_existential` (match.py lines 235-251):
wrap the synthesized condition in `Exists` over the (un-flattened)
attribute when the assigned value is an existential `Match`. -/
def updateConditionIfExistential (attr : SymExpr) (value : MatchValue)
    (cond : Condition) : Condition :=
  if isExistentialValue value then .existsC (unFlatten attr) cond else cond

/-- Source: `Match._add_proper_conditions_for_an_already_resolved_child_match`
(match.py lines 216-233): append exactly one condition for the
already-bound assigned value. -/
def addProperConditions (attr : SymExpr) (value : MatchValue)
    (conds : List Condition) : List Condition :=
  conds ++ [updateConditionIfExistential attr value (getCondition attr value)]

/-- Source: `Match._is_type_filter_needed` (match.py lines 341-347): a `HasType`
filter is needed when the attribute has no type metadata, or the nested
pattern requests a strict subtype of the attribute's declared type. -/
def isTypeFilterNeeded (tbl : ClassTable) (attr : SymExpr)
    (matchType : Option Nat) : Bool :=
  match typeOfExpr attr with
  | none => true
  | some attrType =>
      match matchType with
      | some mt => !(mt == attrType) && tbl.isSub mt attrType
      | none => false

/-- The unnesting decision of
`Match._resolve_child_match_and_merge_conditions` (match.py lines
180-182): the attribute is wrapped in `Flatten` before resolving the
nested pattern when it is iterable and the nested pattern has constraints
or needs a type filter. -/
def childAttrNeedsFlatten (tbl : ClassTable) (attr : SymExpr)
    (child : MatchPattern) : Bool :=
  isIterableExpr attr &&
    (!(child.kwargsOf.isEmptyKw) || isTypeFilterNeeded tbl attr child.typeOf)

/-- The unnesting decision as claim C3 words it: the attribute's
cardinality is one-to-many while the nested pattern does not itself carry
an iterable value.  Stated from the spec in order to compare against
`childAttrNeedsFlatten`, which follows the source. -/
def specChildNeedsFlatten (attr : SymExpr) (child : MatchPattern) : Bool :=
  isIterableExpr attr && !(isIterableValue (.nestedV child))

/-- The payload of `NoneWrappedFieldError` (failures.py, raised in
match.py lines 134-136): the variable's type and the offending attribute
name. -/
structure NoneWrappedFieldInfo where
  varType : Option Nat
  attrName : String

/-- What resolving a (sub)pattern produces: the accumulated conditions and
the selected variables it contributes to the root pattern (conditions are
merged into the parent by `_resolve_child_match_and_merge_conditions`,
selected variables bubble to the root via
`_update_selected_variables`). -/
structure ResolveOutput where
  conditions : List Condition
  selectedVars : List SymExpr

mutual
/-- Source: `Match._resolve` (match.py lines 97-122) for a pattern whose variable
`selfVar` is already fixed (the root binds it first, a nested pattern
receives its enclosing attribute): register the variable when
`is_selected`, then process every kwargs entry in order. -/
def resolveMatch (tbl : ClassTable) (m : MatchPattern) (selfVar : SymExpr) :
    Except NoneWrappedFieldInfo ResolveOutput :=
  match m with
  | .mk _ kwargs _ isSel _ _ _ _ =>
      match resolveKwargs tbl selfVar kwargs with
      | .error e => .error e
      | .ok out =>
          .ok ⟨out.conditions, (if isSel then [selfVar] else []) ++ out.selectedVars⟩

/-- The kwargs loop of `Match._resolve`: each entry contributes its
conditions and selected variables in order. -/
def resolveKwargs (tbl : ClassTable) (selfVar : SymExpr) :
    KwList → Except NoneWrappedFieldInfo ResolveOutput
  | .nil => .ok ⟨[], []⟩
  | .cons name value rest =>
      match resolveField tbl selfVar name value with
      | .error e => .error e
      | .ok (condsDelta, selDelta) =>
          match resolveKwargs tbl selfVar rest with
          | .error e => .error e
          | .ok out =>
              .ok ⟨condsDelta ++ out.conditions, selDelta ++ out.selectedVars⟩

/-- One kwargs entry of `Match._resolve`:
`_get_attribute_and_update_selected_variables` (match.py lines 124-157)
builds the attribute, fails with `NoneWrappedFieldError` when the
reflection layer yields no descriptor, and — for a `Select` value —
flattens an iterable attribute and registers it as selected; then either
`_resolve_child_match_and_merge_conditions` (lines 169-186) for an
unresolved nested `Match`, or
`_add_proper_conditions_for_an_already_resolved_child_match`
(lines 216-233) for an already-bound value. -/
def resolveField (tbl : ClassTable) (selfVar : SymExpr) (name : String)
    (value : MatchValue) :
    Except NoneWrappedFieldInfo (List Condition × List SymExpr) :=
  let wf :=
    match typeOfExpr selfVar with
    | some t => tbl.fieldsOf t name
    | none => none
  match wf with
  | none => .error ⟨typeOfExpr selfVar, name⟩
  | some fd =>
      let attr0 : SymExpr := .attrE selfVar name (some fd)
      let attr1 :=
        if isSelectValue value then
          (if isIterableExpr attr0 then .flattenE attr0 else attr0)
        else attr0
      let selDelta : List SymExpr := if isSelectValue value then [attr1] else []
      match value with
      | .nestedV child =>
          if child.variableOf.isNone then
            let tfn := isTypeFilterNeeded tbl attr1 child.typeOf
            let attr2 :=
              if childAttrNeedsFlatten tbl attr1 child then .flattenE attr1
              else attr1
            match resolveMatch tbl child attr2 with
            | .error e => .error e
            | .ok childOut =>
                let updatedType :=
                  match child.typeOf with
                  | some t => some t
                  | none => typeOfExpr attr2
                let tfConds : List Condition :=
                  if tfn then [.hasTypeC attr2 updatedType] else []
                .ok (tfConds ++ childOut.conditions,
                  selDelta ++ childOut.selectedVars)
          else
            .ok (addProperConditions attr1 value [], selDelta)
      | _ => .ok (addProperConditions attr1 value [], selDelta)
end

/-- The errors pattern compilation can surface: the
`NoneWrappedFieldError` of match.py, and the `TypeError` Python raises
when a typeless, variable-less pattern reaches `let`. -/
inductive QueryError where
  | noneWrappedFieldError (info : NoneWrappedFieldInfo)
  | typeErrorUntyped

/-- Source: `Match._get_or_create_variable` together with the `MatchEntity`
override (match.py lines 349-355 and 384-388): keep an already-bound
variable, otherwise `let` a fresh one over the pattern's explicit domain
(`None` for a plain `Match`). -/
def getOrCreateVariable (tbl : ClassTable) (m : MatchPattern) : Option SymExpr :=
  match m.variableOf with
  | some v => some v
  | none => letFn tbl m.typeOf m.domainOf

/-- Resolution of a root pattern: bind the variable, then run
`Match._resolve`. -/
def rootResolve (tbl : ClassTable) (m : MatchPattern) :
    Except QueryError ResolveOutput :=
  match getOrCreateVariable tbl m with
  | none => .error .typeErrorUntyped
  | some v =>
      match resolveMatch tbl m v with
      | .error i => .error (.noneWrappedFieldError i)
      | .ok out => .ok out

/-- The compiled projection descriptor. -/
inductive QueryDescriptor where
  | entityD (selected : SymExpr) (conds : List Condition)
  | setOfD (selected : List SymExpr) (conds : List Condition)

/-- Source: `Match.expression` (match.py lines 357-368): resolve, then project to
`SetOf` when several variables are selected, otherwise to an `Entity` of
the selected variable (falling back to the pattern's own variable). -/
def expressionOf (tbl : ClassTable) (m : MatchPattern) :
    Except QueryError QueryDescriptor :=
  match getOrCreateVariable tbl m with
  | none => .error .typeErrorUntyped
  | some v =>
      match resolveMatch tbl m v with
      | .error i => .error (.noneWrappedFieldError i)
      | .ok out =>
          if 1 < out.selectedVars.length then
            .ok (.setOfD out.selectedVars out.conditions)
          else
            match out.selectedVars with
            | [] => .ok (.entityD v out.conditions)
            | s :: _ => .ok (.entityD s out.conditions)

/-- What can be passed to `match`/`select` (match.py lines 438-516): an
existing symbolic node, a raw non-type value, a type, or nothing. -/
inductive MatchInput where
  | varIn (e : SymExpr)
  | valIn (v : PlainValue)
  | typeIn (t : Nat)
  | noneIn

/-- A freshly constructed plain `Match` (dataclass defaults:
`is_selected=False`, not existential, not universal). -/
def mkMatchDefault (t : Option Nat) (bv : Option SymExpr) : MatchPattern :=
  .mk t .nil bv false false false false none

/-- A freshly constructed `Select` (match.py lines 391-398:
`is_selected` is forced to `True`). -/
def mkSelectDefault (t : Option Nat) (bv : Option SymExpr) : MatchPattern :=
  .mk t .nil bv true false false true none

/-- Source: `_match_or_select` (match.py lines 504-516): an existing symbolic node
always yields a `Select` bound to it, whatever class the caller asked
for; a truthy non-type value yields the requested class over a `Literal`
variable; otherwise the requested class is constructed from the type. -/
def matchOrSelect (selectKind : Bool) (input : MatchInput) : MatchPattern :=
  match input with
  | .varIn e => mkSelectDefault (typeOfExpr e) (some e)
  | .valIn v =>
      if isTruthyPlain v then
        (if selectKind then mkSelectDefault else mkMatchDefault) none
          (some (.litE v))
      else
        (if selectKind then mkSelectDefault else mkMatchDefault) none none
  | .typeIn t =>
      (if selectKind then mkSelectDefault else mkMatchDefault) (some t) none
  | .noneIn =>
      (if selectKind then mkSelectDefault else mkMatchDefault) none none

/-- Source: `match` (match.py lines 438-448). -/
def matchFn (input : MatchInput) : MatchPattern := matchOrSelect false input

/-- Source: `match_any` (match.py lines 451-459). -/
def matchAnyFn (input : MatchInput) : MatchPattern :=
  (matchFn input).setExistential true

/-- Source: `match_all` (match.py lines 462-470). -/
def matchAllFn (input : MatchInput) : MatchPattern :=
  (matchFn input).setUniversal true

/-- Source: `select` (match.py lines 473-479). -/
def selectFn (input : MatchInput) : MatchPattern := matchOrSelect true input

/- ## Result quantifiers (`entity.py` lines 73-120; the `An`/`The`
   node classes live in `symbolic.py`, which is not under src/, and are
   modelled from the spec) -/

/-- Modelled from the spec: evaluation of the `An` quantifier (class `An`
in `symbolic.py`, not under src/).  Per §4.3 and §8, `An` yields the
satisfying domain elements, in domain iteration order, one per
solution. -/
def anEvaluate {α : Type} (domain : List α) (satisfies : α → Bool) : List α :=
  domain.filter satisfies

/-- The outcome of evaluating `The`: a single element or the
`NotExactlyOneResultError`.  There is no sequence-shaped outcome. -/
inductive TheOutcome (α : Type) where
  | ok (value : α)
  | notExactlyOneResultError

/-- Modelled from the spec: evaluation of the `The` quantifier (class
`The` in `symbolic.py`, not under src/).  Per §4.3, `The` forces full
evaluation of the underlying `An` sequence and fails with
`NotExactlyOneResultError` unless exactly one solution exists. -/
def theEvaluate {α : Type} (solutions : List α) : TheOutcome α :=
  match solutions with
  | [a] => .ok a
  | _ => .notExactlyOneResultError

/-- Source: `the` composed with evaluation (entity.py lines 94-120 build
`The(...)` over the entity; evaluating it runs the underlying `An`
sequence to completion and quantifies the solutions). -/
def theQueryResult {α : Type} (domain : List α) (satisfies : α → Bool) :
    TheOutcome α :=
  theEvaluate (anEvaluate domain satisfies)

/- ## Theorems -/

/-- C8 (counterexample): `Sequence` is a fifth entry of
`WrappedField.container_types`, so a field whose resolved type has origin
`collections.abc.Sequence` is classified as a container although the
claim's four kinds (list, set, tuple, type-reference) exclude it. -/
theorem c8_sequence_origin_counterexample :
    isContainerOrigin (some .sequenceOrigin) = true ∧
    specContainerOrigin (some .sequenceOrigin) = false := by
  constructor <;> rfl

/-- C8 (amended): the reflection layer classifies a field as a container
exactly when the origin of its resolved type is one of the five kinds
list, set, tuple, type-reference, or Sequence; no other origin (and no
absent origin) makes a field a container. -/
theorem c8_container_iff_origin_in_container_types :
    ∀ origin : Option PyOrigin,
      isContainerOrigin origin = true ↔
        (origin = some .listOrigin ∨ origin = some .setOrigin ∨
         origin = some .tupleOrigin ∨ origin = some .typeOrigin ∨
         origin = some .sequenceOrigin) := by
  intro origin
  cases origin with
  | none => simp [isContainerOrigin]
  | some o => cases o <;> simp [isContainerOrigin, containerTypesList]

/-- C6: resolving a forward-referenced type name first takes an exact
name match among the record types known to the class diagram (ignoring
the namespaces entirely); only when none exists does it search the loaded
namespaces, where zero candidates raises `TypeResolutionError` and two or
more candidates return the first found with the ambiguity warning
logged. -/
theorem c6_forward_reference_resolution_order
    (diagram globalsNS : List NamedClass) (modules : List (List NamedClass))
    (n : String) :
    (∀ c rest, diagram.filter (fun x => x.className == n) = c :: rest →
        resolveForwardReference diagram globalsNS modules n = .ok (c, false)) ∧
    (diagram.filter (fun x => x.className == n) = [] →
      searchClassInGlobals globalsNS n ++ searchClassInSysModules modules n = [] →
        resolveForwardReference diagram globalsNS modules n = .error ⟨n⟩) ∧
    (∀ c c2 rest, diagram.filter (fun x => x.className == n) = [] →
      searchClassInGlobals globalsNS n ++ searchClassInSysModules modules n =
          c :: c2 :: rest →
        resolveForwardReference diagram globalsNS modules n = .ok (c, true)) := by
  refine ⟨?_, ?_, ?_⟩
  · intro c rest h
    unfold resolveForwardReference
    rw [h]
  · intro h1 h2
    unfold resolveForwardReference
    rw [h1]
    unfold manuallySearchForClassName
    rw [h2]
  · intro c c2 rest h1 h2
    unfold resolveForwardReference
    rw [h1]
    unfold manuallySearchForClassName
    rw [h2]

theorem c6_forward_reference_witness :
    resolveForwardReference [⟨"A", 1⟩] [⟨"A", 2⟩] [] "A" = .ok (⟨"A", 1⟩, false) ∧
    resolveForwardReference [] [] [[⟨"B", 5⟩]] "A" = .error ⟨"A"⟩ ∧
    resolveForwardReference [] [⟨"A", 2⟩] [[⟨"A", 3⟩]] "A" = .ok (⟨"A", 2⟩, true) :=
  ⟨(c6_forward_reference_resolution_order [⟨"A", 1⟩] [⟨"A", 2⟩] [] "A").1
      ⟨"A", 1⟩ [] (by decide),
   (c6_forward_reference_resolution_order [] [] [[⟨"B", 5⟩]] "A").2.1
      (by decide) (by decide),
   (c6_forward_reference_resolution_order [] [⟨"A", 2⟩] [[⟨"A", 3⟩]] "A").2.2
      ⟨"A", 2⟩ ⟨"A", 3⟩ [] (by decide) (by decide)⟩

/-- C7: classifying the same (type, field) pair twice yields structurally
equal descriptors under `WrappedField.__eq__`, and the `resolved_type`
cache computes once and memoizes: the first access invokes the resolver
exactly once, the second access returns the same value from the unchanged
cache with zero resolver invocations. -/
theorem c7_classify_idempotent_and_resolved_type_memoized
    (t : Nat) (f : String) (resolver : WrappedFieldId → Nat) :
    wrappedFieldEq (classifyField t f) (classifyField t f) = true ∧
    ((cachedResolvedTypeAccess resolver (classifyField t f) ⟨none⟩).2.2 = 1 ∧
      (cachedResolvedTypeAccess resolver (classifyField t f)
          (cachedResolvedTypeAccess resolver (classifyField t f) ⟨none⟩).2.1).1 =
        (cachedResolvedTypeAccess resolver (classifyField t f) ⟨none⟩).1 ∧
      (cachedResolvedTypeAccess resolver (classifyField t f)
          (cachedResolvedTypeAccess resolver (classifyField t f) ⟨none⟩).2.1).2.1 =
        (cachedResolvedTypeAccess resolver (classifyField t f) ⟨none⟩).2.1 ∧
      (cachedResolvedTypeAccess resolver (classifyField t f)
          (cachedResolvedTypeAccess resolver (classifyField t f) ⟨none⟩).2.1).2.2 = 0) := by
  refine ⟨?_, rfl, rfl, rfl, rfl⟩
  simp [wrappedFieldEq, classifyField]

/-- C2: `The` over the fully evaluated `An` sequence returns the single
satisfying element when exactly one exists, raises
`NotExactlyOneResultError` when zero or several exist, and an `ok`
outcome always stands for exactly one solution (it is never a
sequence). -/
theorem c2_the_returns_unique_solution_or_fails {α : Type}
    (domain : List α) (satisfies : α → Bool) :
    (∀ a, anEvaluate domain satisfies = [a] →
        theQueryResult domain satisfies = .ok a) ∧
    ((anEvaluate domain satisfies).length ≠ 1 →
        theQueryResult domain satisfies = .notExactlyOneResultError) ∧
    (∀ a, theQueryResult domain satisfies = .ok a →
        anEvaluate domain satisfies = [a]) := by
  refine ⟨?_, ?_, ?_⟩
  · intro a h
    unfold theQueryResult
    rw [h]
    rfl
  · intro h
    unfold theQueryResult
    cases hs : anEvaluate domain satisfies with
    | nil => rfl
    | cons a tail =>
        cases tail with
        | nil => exact absurd (by rw [hs]; rfl) h
        | cons b rest => rfl
  · intro a h
    unfold theQueryResult at h
    cases hs : anEvaluate domain satisfies with
    | nil => rw [hs] at h; exact absurd h (by simp [theEvaluate])
    | cons x tail =>
        cases tail with
        | nil =>
            rw [hs] at h
            simp only [theEvaluate] at h
            cases h
            rfl
        | cons y rest => rw [hs] at h; exact absurd h (by simp [theEvaluate])

theorem c2_the_witness :
    theQueryResult [1, 2, 3] (fun x => x == 2) = .ok 2 ∧
    theQueryResult [1, 2, 3] (fun x => 1 ≤ x) = .notExactlyOneResultError ∧
    theQueryResult [1, 2, 3] (fun _ => false) = .notExactlyOneResultError :=
  ⟨(c2_the_returns_unique_solution_or_fails [1, 2, 3] (fun x => x == 2)).1 2
      (by decide),
   (c2_the_returns_unique_solution_or_fails [1, 2, 3] (fun x => 1 ≤ x)).2.1
      (by decide),
   (c2_the_returns_unique_solution_or_fails [1, 2, 3] (fun _ => false)).2.1
      (by decide)⟩

/-- C9: with an explicit domain, a `let`-declared Variable's domain source
holds exactly the supplied elements that are instances of the declared
type; with the domain omitted for a `Symbol` type, the domain source is
the `SymbolGraph` registry's instances of that type; and `let` stores
precisely the source computed by
`_get_domain_source_from_domain_and_type_values`. -/
theorem c9_variable_domain_source (tbl : ClassTable) (t : Nat) :
    (∀ xs x,
      x ∈ (getDomainSourceFromDomainAndTypeValues tbl (some xs) t).getD [] ↔
        (x ∈ xs ∧ isinstanceV tbl x t = true)) ∧
    (tbl.isSymbol t = true →
        getDomainSourceFromDomainAndTypeValues tbl none t =
          some (symbolGraphInstances tbl t)) ∧
    (∀ domain, letVariableDomain (letFn tbl (some t) domain) =
        some (getDomainSourceFromDomainAndTypeValues tbl domain t)) := by
  refine ⟨?_, ?_, ?_⟩
  · intro xs x
    simp [getDomainSourceFromDomainAndTypeValues, List.mem_filter]
  · intro h
    simp [getDomainSourceFromDomainAndTypeValues, h]
  · intro domain
    rfl

/-- A concrete class table for the C9 witness: type 1 is a Symbol type,
`isinstance` compares dynamic-type ids for equality, the registry holds
one instance of type 1 and one of type 2. -/
def c9Table : ClassTable :=
  { fieldsOf := fun _ _ => none
    isSub := fun a b => a == b
    isSymbol := fun _ => true
    registry := [.obj 1 0, .obj 2 0]
    typeName := fun _ => "T"
    isIterableType := fun _ => false }

theorem c9_variable_domain_source_witness :
    getDomainSourceFromDomainAndTypeValues c9Table none 1 =
      some (symbolGraphInstances c9Table 1) ∧
    PlainValue.obj 1 0 ∈
      (getDomainSourceFromDomainAndTypeValues c9Table
        (some [.obj 1 0, .prim "x"]) 1).getD [] :=
  ⟨(c9_variable_domain_source c9Table 1).2.1 rfl,
   ((c9_variable_domain_source c9Table 1).1 [.obj 1 0, .prim "x"]
      (.obj 1 0)).mpr ⟨List.mem_cons_self _ _, rfl⟩⟩

/-- An attribute annotated with a field descriptor is iterable exactly
when the descriptor's cardinality is one-to-many. -/
theorem isIterableExpr_attrE (b : SymExpr) (f : String) (fd : FieldDescriptor) :
    isIterableExpr (.attrE b f (some fd)) = fd.isIterable := rfl

/-- C1: for an attribute backed by a field descriptor and an already-bound
assigned value, exactly one condition is appended, and
`_get_either_a_containment_or_an_equal_condition` chooses it by
cardinality: iterable attribute vs. scalar value gives containment
(attribute contains value); scalar attribute vs. iterable value gives
membership (value contains attribute); both iterable without the
universal flag wraps the attribute in `Flatten` and makes the value
contain the unnested element; every other case is equality. -/
theorem c1_cardinality_condition_synthesis
    (base : SymExpr) (f : String) (fd : FieldDescriptor) (value : MatchValue)
    (hbound : isUnresolvedMatch value = false) :
    (∀ conds, (addProperConditions (.attrE base f (some fd)) value conds).length =
        conds.length + 1) ∧
    (fd.isIterable = true → isIterableValue value = false →
        getCondition (.attrE base f (some fd)) value =
          .comparatorContains (.sym (.attrE base f (some fd)))
            (assignedVariableOf value)) ∧
    (fd.isIterable = false → isIterableValue value = true →
        getCondition (.attrE base f (some fd)) value =
          .comparatorContains (assignedVariableOf value)
            (.sym (.attrE base f (some fd)))) ∧
    (fd.isIterable = true → isIterableValue value = true →
      isUniversalValue value = false →
        getCondition (.attrE base f (some fd)) value =
          .comparatorContains (assignedVariableOf value)
            (.sym (.flattenE (.attrE base f (some fd))))) ∧
    (fd.isIterable = false → isIterableValue value = false →
        getCondition (.attrE base f (some fd)) value =
          .comparatorEq (.sym (.attrE base f (some fd)))
            (assignedVariableOf value)) ∧
    (fd.isIterable = true → isIterableValue value = true →
      isUniversalValue value = true →
        getCondition (.attrE base f (some fd)) value =
          .comparatorEq (.sym (.attrE base f (some fd)))
            (assignedVariableOf value)) := by
  refine ⟨?_, ?_, ?_, ?_, ?_, ?_⟩
  · intro conds
    simp [addProperConditions]
  · intro h1 h2
    simp [getCondition, isIterableExpr_attrE, h1, h2]
  · intro h1 h2
    simp [getCondition, isIterableExpr_attrE, h1, h2]
  · intro h1 h2 h3
    simp [getCondition, isIterableExpr_attrE, flattenOnce, h1, h2, h3]
  · intro h1 h2
    simp [getCondition, isIterableExpr_attrE, h1, h2]
  · intro h1 h2 h3
    simp [getCondition, isIterableExpr_attrE, h1, h2, h3]

def c1Base : SymExpr := .varE "x" (some 1) none false

theorem c1_cardinality_condition_synthesis_witness :
    (addProperConditions (.attrE c1Base "xs" (some ⟨true, some 2⟩))
        (.plainV (.prim "a")) []).length = ([] : List Condition).length + 1 ∧
    getCondition (.attrE c1Base "xs" (some ⟨true, some 2⟩))
        (.plainV (.prim "a")) =
      .comparatorContains (.sym (.attrE c1Base "xs" (some ⟨true, some 2⟩)))
        (.plain (.prim "a")) :=
  ⟨(c1_cardinality_condition_synthesis c1Base "xs" ⟨true, some 2⟩
      (.plainV (.prim "a")) rfl).1 [],
   (c1_cardinality_condition_synthesis c1Base "xs" ⟨true, some 2⟩
      (.plainV (.prim "a")) rfl).2.1 rfl rfl⟩

/-- C4: when the attribute is iterable, the assigned nested pattern is
resolved to an iterable variable, and the pattern carries the `universal`
flag (as `match_all` sets it), the synthesized condition is an equality
on the whole container rather than the element-wise containment. -/
theorem c4_universal_flag_gives_whole_container_equality
    (base : SymExpr) (f : String) (fd : FieldDescriptor) (child : MatchPattern)
    (e : SymExpr) (hvar : child.variableOf = some e)
    (hattr : fd.isIterable = true) (hval : isIterableExpr e = true)
    (huniv : child.universalOf = true) :
    getCondition (.attrE base f (some fd)) (.nestedV child) =
      .comparatorEq (.sym (.attrE base f (some fd))) (.sym e) ∧
    (∀ input, (matchAllFn input).universalOf = true) := by
  constructor
  · have h1 : isIterableValue (.nestedV child) = true := by
      simp [isIterableValue, hvar, hval]
    have h2 : isUniversalValue (.nestedV child) = true := by
      simp [isUniversalValue, huniv]
    have h3 : assignedVariableOf (.nestedV child) = .sym e := by
      simp [assignedVariableOf, hvar]
    simp [getCondition, isIterableExpr_attrE, hattr, h1, h2, h3]
  · intro input
    cases h : matchFn input with
    | mk t kw v s ex u k d =>
        simp [matchAllFn, h, MatchPattern.setUniversal, MatchPattern.universalOf]

def c4Child : MatchPattern :=
  .mk (some 2) .nil (some (.varE "ys" (some 2) none true)) false false true
    false none

theorem c4_universal_flag_witness :
    getCondition
        (.attrE (.varE "x" (some 1) none false) "xs" (some ⟨true, some 2⟩))
        (.nestedV c4Child) =
      .comparatorEq
        (.sym (.attrE (.varE "x" (some 1) none false) "xs" (some ⟨true, some 2⟩)))
        (.sym (.varE "ys" (some 2) none true)) :=
  (c4_universal_flag_gives_whole_container_equality (.varE "x" (some 1) none false)
    "xs" ⟨true, some 2⟩ c4Child (.varE "ys" (some 2) none true)
    rfl rfl rfl rfl).1

/-- A concrete class table for the C3 counterexample: `isinstance` and
`issubclass` compare type ids for equality. -/
def c3Table : ClassTable :=
  { fieldsOf := fun _ _ => none
    isSub := fun a b => a == b
    isSymbol := fun _ => false
    registry := []
    typeName := fun _ => ""
    isIterableType := fun _ => false }

/-- The attribute of the C3 counterexample: a one-to-many (iterable) field
`xs` whose element type is type 2. -/
def c3Attr : SymExpr :=
  .attrE (.varE "x" (some 1) none false) "xs" (some ⟨true, some 2⟩)

/-- The nested pattern of the C3 counterexample: an unresolved `Match`
requesting exactly the attribute's element type, with no field
constraints; it carries no iterable value. -/
def c3Child : MatchPattern :=
  .mk (some 2) .nil none false false false false none

/-- C3 (counterexample): `match.py` decides unnesting by
`attr._is_iterable_ and (kwargs or type_filter_needed)`; for an iterable
attribute assigned an unresolved nested pattern with no constraints and
no type filter needed, the code does not apply `Flatten`, although the
claim's rule (one-to-many attribute, nested pattern without an iterable
value) requires it. -/
theorem c3_flatten_decision_counterexample :
    childAttrNeedsFlatten c3Table c3Attr c3Child = false ∧
    specChildNeedsFlatten c3Attr c3Child = true := by
  constructor <;> rfl

/-- C3 (amended): the attribute assigned an unresolved nested pattern is
wrapped in `Flatten` before resolving that pattern if and only if the
attribute is iterable (one-to-many) and the nested pattern either carries
at least one field constraint or needs a `HasType` filter; whether the
nested pattern carries an iterable value is not consulted (an unresolved
nested pattern never carries one). -/
theorem c3_flatten_decision_amended (tbl : ClassTable) (attr : SymExpr)
    (child : MatchPattern) :
    childAttrNeedsFlatten tbl attr child = true ↔
      (isIterableExpr attr = true ∧
        (child.kwargsOf.isEmptyKw = false ∨
          isTypeFilterNeeded tbl attr child.typeOf = true)) := by
  unfold childAttrNeedsFlatten
  cases h1 : isIterableExpr attr <;>
    cases h2 : child.kwargsOf.isEmptyKw <;>
      cases h3 : isTypeFilterNeeded tbl attr child.typeOf <;> simp

/-- Any missing field descriptor among a pattern's kwargs makes the kwargs
loop of `Match._resolve` fail; `NoneWrappedFieldError` is the only error
resolution raises, so the loop's result is an error in every such case. -/
theorem resolveKwargs_error_of_missing_field (tbl : ClassTable)
    (selfVar : SymExpr) (t : Nat) (hty : typeOfExpr selfVar = some t)
    (kw : KwList) (f : String) (v : MatchValue) (hmem : kw.memKw f v)
    (hf : tbl.fieldsOf t f = none) :
    ∃ info, resolveKwargs tbl selfVar kw = .error info :=
  match kw, hmem with
  | .cons n val rest, hmem => by
      cases hmem with
      | inl h =>
          obtain ⟨hn, _⟩ := h
          subst hn
          refine ⟨⟨typeOfExpr selfVar, n⟩, ?_⟩
          simp only [resolveKwargs, resolveField, hty, hf]
      | inr h =>
          cases hrf : resolveField tbl selfVar n val with
          | error err => exact ⟨err, by simp only [resolveKwargs]; rw [hrf]⟩
          | ok d =>
              obtain ⟨info, hrec⟩ :=
                resolveKwargs_error_of_missing_field tbl selfVar t hty rest f v h hf
              exact ⟨info, by simp only [resolveKwargs]; rw [hrf, hrec]⟩

/-- C5: a pattern that constrains a field name for which the reflection
layer yields no `FieldDescriptor` fails to resolve with
`NoneWrappedFieldError` (the spec's no-backing-field compile error), and
it does so for every explicit domain alike: the failure is decided by
pattern resolution alone, before any domain element is examined. -/
theorem c5_missing_field_fails_resolution (tbl : ClassTable)
    (m : MatchPattern) (t : Nat) (f : String) (v : MatchValue)
    (hvar : m.variableOf = none) (htype : m.typeOf = some t)
    (hmem : m.kwargsOf.memKw f v) (hf : tbl.fieldsOf t f = none) :
    ∀ domain, ∃ info,
      rootResolve tbl (m.withDomain domain) =
        .error (.noneWrappedFieldError info) := by
  intro domain
  cases m with
  | mk mt kw mv s ex un k d =>
      simp only [MatchPattern.variableOf] at hvar
      simp only [MatchPattern.typeOf] at htype
      simp only [MatchPattern.kwargsOf] at hmem
      subst hvar htype
      obtain ⟨info, herr⟩ :=
        resolveKwargs_error_of_missing_field tbl
          (.varE (tbl.typeName t) (some t)
            (getDomainSourceFromDomainAndTypeValues tbl domain t)
            (tbl.isIterableType t))
          t rfl kw f v hmem hf
      refine ⟨info, ?_⟩
      simp only [rootResolve, getOrCreateVariable, MatchPattern.withDomain,
        MatchPattern.variableOf, MatchPattern.typeOf, MatchPattern.domainOf,
        letFn, resolveMatch]
      rw [herr]

/-- A concrete class table for the C5 witness: no type has any field. -/
def c5Table : ClassTable :=
  { fieldsOf := fun _ _ => none
    isSub := fun a b => a == b
    isSymbol := fun _ => false
    registry := []
    typeName := fun _ => "T"
    isIterableType := fun _ => false }

/-- The pattern of the C5 witness: type 1 constrained on the unknown field
`bad`. -/
def c5Pattern : MatchPattern :=
  .mk (some 1) (.cons "bad" (.plainV .noneV) .nil) none false false false
    false none

theorem c5_missing_field_witness :
    ∃ info, rootResolve c5Table (c5Pattern.withDomain (some [.obj 1 0])) =
      .error (.noneWrappedFieldError info) :=
  c5_missing_field_fails_resolution c5Table c5Pattern 1 "bad" (.plainV .noneV)
    rfl rfl (Or.inl ⟨rfl, rfl⟩) rfl (some [.obj 1 0])

/-- C10: handing an already-constructed symbolic node to `match`,
`match_any`, `match_all`, or `select` always yields a `Select` pattern
(`is_selected` is true), never a plain non-selecting `Match`; and
whenever such a pattern resolves successfully as a query root, the node
is the first entry of the root's selected variables. -/
theorem c10_match_on_variable_yields_select (e : SymExpr) :
    ((matchFn (.varIn e)).isSelectKindOf = true ∧
      (matchFn (.varIn e)).isSelectedOf = true) ∧
    ((matchAnyFn (.varIn e)).isSelectKindOf = true ∧
      (matchAnyFn (.varIn e)).isSelectedOf = true) ∧
    ((matchAllFn (.varIn e)).isSelectKindOf = true ∧
      (matchAllFn (.varIn e)).isSelectedOf = true) ∧
    ((selectFn (.varIn e)).isSelectKindOf = true ∧
      (selectFn (.varIn e)).isSelectedOf = true) ∧
    (∀ (tbl : ClassTable) (kwargs : KwList) (p : MatchPattern)
        (out : ResolveOutput),
      (p = (matchFn (.varIn e)).withKwargs kwargs ∨
        p = (matchAnyFn (.varIn e)).withKwargs kwargs ∨
        p = (matchAllFn (.varIn e)).withKwargs kwargs ∨
        p = (selectFn (.varIn e)).withKwargs kwargs) →
      rootResolve tbl p = .ok out →
      out.selectedVars.head? = some e) := by
  refine ⟨⟨rfl, rfl⟩, ⟨rfl, rfl⟩, ⟨rfl, rfl⟩, ⟨rfl, rfl⟩, ?_⟩
  intro tbl kwargs p out hp hr
  have hforms :
      p = MatchPattern.mk (typeOfExpr e) kwargs (some e) true false false
            true none ∨
      p = MatchPattern.mk (typeOfExpr e) kwargs (some e) true true false
            true none ∨
      p = MatchPattern.mk (typeOfExpr e) kwargs (some e) true false true
            true none := by
    rcases hp with rfl | rfl | rfl | rfl
    · exact Or.inl rfl
    · exact Or.inr (Or.inl rfl)
    · exact Or.inr (Or.inr rfl)
    · exact Or.inl rfl
  rcases hforms with rfl | rfl | rfl <;>
    (simp only [rootResolve, getOrCreateVariable, MatchPattern.variableOf,
       resolveMatch] at hr
     cases hk : resolveKwargs tbl e kwargs with
     | error err => rw [hk] at hr; exact absurd hr (by simp)
     | ok inner =>
         rw [hk] at hr
         simp only [Except.ok.injEq] at hr
         subst hr
         rfl)

/-- A concrete class table for the C10 witness. -/
def c10Table : ClassTable :=
  { fieldsOf := fun _ _ => none
    isSub := fun a b => a == b
    isSymbol := fun _ => false
    registry := []
    typeName := fun _ => "T"
    isIterableType := fun _ => false }

/-- The existing variable of the C10 witness. -/
def c10Var : SymExpr := .varE "v" (some 1) none false

theorem c10_match_on_variable_witness :
    (ResolveOutput.selectedVars ⟨[], [c10Var]⟩).head? = some c10Var :=
  (c10_match_on_variable_yields_select c10Var).2.2.2.2 c10Table .nil
    ((matchFn (.varIn c10Var)).withKwargs .nil) ⟨[], [c10Var]⟩
    (Or.inl rfl) rfl
